import Mathlib

/-!
Shallow embedding of the SentinelGraph resilient fetch layer
(`backend/scraper.py`, `backend/scraper_pro.py`,
`backend/scraper_twikit_safe.py`, `backend/scraper_twscrape.py`).

Conventions: a Python value that may be absent is an `Option`; Python
truthiness in `x or y` / `if x:` is modelled explicitly (`None`, `""`,
`0` and the empty list are falsy); a raised exception is an
`Except.error`; wall-clock time is ℚ (a fake clock); sleeping for `d`
seconds advances the clock by exactly `d`.
-/

/-- Python `a or b` on two optional strings: `None` and `""` are falsy. -/
def orFalsyS : Option String → Option String → Option String
  | some s, b => if s = "" then b else some s
  | none, b => b

/-- Python `a or b` on two optional integers: `None` and `0` are falsy. -/
def orFalsyN : Option Int → Option Int → Option Int
  | some v, b => if v = 0 then b else some v
  | none, b => b

/-- Python `x if x-is-truthy else None` on an optional string (the
`if tag and tag.get("content")` guards of the HTML parser). -/
def truthyS : Option String → Option String
  | some s => if s = "" then none else some s
  | none => none

/-! ## GlobalRateLimiter (`scraper_pro.py` lines 90-105) -/

/-- State of `GlobalRateLimiter`: `min_delay` is fixed at construction,
`last` is the `_last` grant stamp (initially `0.0`). -/
structure GlobalRateLimiter where
  min_delay : ℚ
  last : ℚ
deriving DecidableEq

/-- `GlobalRateLimiter.__init__`: a non-positive `qps` is replaced by
`1.0`, then `min_delay = 1.0 / qps` and `_last = 0.0`. -/
def GlobalRateLimiter.init (qps : ℚ) : GlobalRateLimiter :=
  { min_delay := 1 / (if qps ≤ 0 then 1 else qps), last := 0 }

/-- The time at which one call to `wait` returns (= the value stamped
into `_last`): the body reads `now`, computes
`to_wait = max(0, min_delay - (now - _last))`, sleeps
`to_wait + jitter` when positive, and stamps the wake-up time. -/
def GlobalRateLimiter.grantTime (st : GlobalRateLimiter) (now jitter : ℚ) : ℚ :=
  if 0 < max 0 (st.min_delay - (now - st.last)) then
    now + max 0 (st.min_delay - (now - st.last)) + jitter
  else now

/-- One call to `GlobalRateLimiter.wait` under its lock, on the fake
clock: returns the grant time and the updated limiter state. -/
def GlobalRateLimiter.wait (st : GlobalRateLimiter) (now jitter : ℚ) :
    ℚ × GlobalRateLimiter :=
  (st.grantTime now jitter, { st with last := st.grantTime now jitter })

/-- A serialized sequence of calls to `wait` (the asyncio lock makes all
concurrent callers one sequence): each entry is one call's clock reading
and jitter sample; the output is the sequence of grant times. -/
def runGovernor : GlobalRateLimiter → List (ℚ × ℚ) → List ℚ
  | _, [] => []
  | st, (now, j) :: rest =>
    (st.wait now j).1 :: runGovernor (st.wait now j).2 rest

/-- A physically possible call sequence: every jitter sample is
nonnegative (`random.uniform(JITTER_LOW, JITTER_HIGH)` with positive
bounds) and the monotone clock never reads earlier than the previous
stamp (which was written before the lock was released). -/
def validTrace : GlobalRateLimiter → List (ℚ × ℚ) → Bool
  | _, [] => true
  | st, (now, j) :: rest =>
    decide (st.last ≤ now) && decide (0 ≤ j) && validTrace (st.wait now j).2 rest

/-! ## retryable (`scraper_pro.py` lines 108-123) -/

/-- The loop body of `retryable`: `fn i` is the outcome of the i-th
invocation of the wrapped coroutine, `exc` the last captured error, the
fuel the remaining iterations of `for i in range(max_retries)`.  On
success the value is returned at once; when the range is exhausted the
final `raise exc` re-raises the last captured error unchanged (`none`
models the initial `exc = None`). -/
def retryGo {E A : Type} (fn : Nat → Except E A) :
    Option E → Nat → Nat → Except (Option E) A
  | exc, _, 0 => .error exc
  | _, i, k + 1 =>
    match fn i with
    | .ok a => .ok a
    | .error e => retryGo fn (some e) (i + 1) k

/-- `retryable(max_retries)` applied to a wrapped operation. -/
def retryable {E A : Type} (fn : Nat → Except E A) (max_retries : Nat) :
    Except (Option E) A :=
  retryGo fn none 0 max_retries

/-- How many times the loop of `retryable` invokes the wrapped
operation, starting at attempt `i` with the given remaining fuel. -/
def retryCalls {E A : Type} (fn : Nat → Except E A) : Nat → Nat → Nat
  | _, 0 => 0
  | i, k + 1 =>
    match fn i with
    | .ok _ => 1
    | .error _ => 1 + retryCalls fn (i + 1) k

/-! ## Account / AccountPool (`scraper_pro.py` lines 45-87) -/

/-- An `Account` record (the twikit client object and the asyncio
semaphore carry no data relevant to the verified claims and are
omitted). -/
structure Account where
  name : String
  auth_token : String
  ct0 : String
  proxy : Option String := none
  last_used : ℚ := 0
  failures : Nat := 0
deriving DecidableEq

/-- `AccountPool` state after a successful construction. -/
structure AccountPool where
  accounts : List Account
  idx : Nat
deriving DecidableEq

/-- `AccountPool.__init__`: `if not accounts: raise ValueError(...)`,
otherwise store the list and start the rotation index at 0. -/
def AccountPool.init (accounts : List Account) : Except String AccountPool :=
  if accounts = [] then .error "AccountPool requires at least one account"
  else .ok { accounts := accounts, idx := 0 }

/-! ## SafeTwitterScraper construction (`scraper_twikit_safe.py` 13-22) -/

/-- A twikit session cookie pair. -/
structure Cookies where
  auth_token : String
  ct0 : String
deriving DecidableEq

/-- The literal cookie dict that `SafeTwitterScraper.__init__` installs
with `set_cookies`, regardless of its arguments. -/
def hardcodedCookies : Cookies :=
  { auth_token := "c1bedd29f779434f156d7ab7ce4cbc655a12c6fb"
    ct0 := "f771810bd4d2f56614ede08b8bcda4209c79c3374268733bd33ec6657a2b7a400026d74463afdb299ca1defd9bae1f4fe9a2d7c94b16532d1e2800f660359a4d580bbcdf2191e68c5f5a746f6aebbabf" }

/-- `SafeTwitterScraper.__init__`: `if not auth_token or not ct0` raise
`ValueError`; otherwise install the hardcoded cookie dict on the fresh
client.  The argument values are never read again. -/
def SafeTwitterScraper.init (auth_token ct0 : String) : Except String Cookies :=
  if auth_token = "" ∨ ct0 = "" then .error "auth_token and ct0 are required"
  else .ok hardcodedCookies

/-! ## Twikit-family normalizer (`scraper_pro.py` lines 350-375) -/

/-- The attribute surface of a twikit user object read by the
normalizer; `none` is an absent attribute (`getattr` default `None`). -/
structure TwikitUser where
  id : Option String := none
  username : Option String := none
  displayName : Option String := none
  name : Option String := none
  followersCount : Option Int := none
  verified : Option Bool := none
  profile_image_url : Option String := none
  avatar : Option String := none
deriving DecidableEq

/-- The attribute surface of a twikit tweet object read by
`_normalize_tweet_from_twikit`; `none` is an absent attribute. -/
structure TwikitTweet where
  id : Option String := none
  text : Option String := none
  rawContent : Option String := none
  content : Option String := none
  created_at : Option String := none
  createdAt : Option String := none
  likeCount : Option Int := none
  likes : Option Int := none
  retweetCount : Option Int := none
  replyCount : Option Int := none
  viewCount : Option Int := none
  conversation_id : Option String := none
  conversationId : Option String := none
  user : Option TwikitUser := none
deriving DecidableEq

/-- The nested `out["user"]` dict. -/
structure NormUser where
  id : Option String
  username : Option String
  name : Option String
  followers : Option Int
  verified : Option Bool
  profile_image : Option String
deriving DecidableEq

/-- The output dict of `_normalize_tweet_from_twikit`; an absent key
(`user` when `t.user` is falsy, `scraped_with_query` when `query` is
falsy, `error` when no exception fired) is `none`. -/
structure NormTweet where
  id : Option String
  text : Option String
  created_at : Option String
  likes : Option Int
  retweets : Option Int
  replies : Option Int
  views : Option Int
  conversation_id : Option String
  user : Option NormUser
  scraped_with_query : Option String
  error : Option String
deriving DecidableEq

/-- `SafeScraper._normalize_tweet_from_twikit`: every read is a
`getattr` with default `None`, chained with Python `or`, so no access
can raise and the `except` branch never fires (`error` stays absent). -/
def normalize_tweet_from_twikit (t : TwikitTweet) (query : Option String) :
    NormTweet :=
  { id := t.id
    text := orFalsyS (orFalsyS t.text t.rawContent) t.content
    created_at := orFalsyS t.created_at t.createdAt
    likes := orFalsyN t.likeCount t.likes
    retweets := t.retweetCount
    replies := t.replyCount
    views := t.viewCount
    conversation_id := orFalsyS t.conversation_id t.conversationId
    user := t.user.map fun u =>
      { id := u.id
        username := u.username
        name := orFalsyS u.displayName u.name
        followers := u.followersCount
        verified := u.verified
        profile_image := orFalsyS u.profile_image_url u.avatar }
    scraped_with_query := truthyS query
    error := none }

/-- A normalized record fed back into the normalizer is a plain dict:
Python `getattr(d, name, None)` returns `None` for every attribute name
the normalizer reads, because dict entries are keys, not attributes.  As
an attribute source a normalized record is therefore indistinguishable
from the empty object. -/
def NormTweet.asAttrSource (_r : NormTweet) : TwikitTweet := {}

/-- `_normalize_tweet_from_twikit` applied to one of its own outputs
(the round trip of the idempotence property). -/
def renormalize (r : NormTweet) : NormTweet :=
  normalize_tweet_from_twikit r.asAttrSource none

/-! ## twscrape normalizer (`scraper_twscrape.py` lines 40-53) -/

/-- The attribute surface of a twscrape user object; `username` and
`displayName` are read with `getattr(..., None)`. -/
structure TwsUser where
  username : Option String := none
  displayName : Option String := none
deriving DecidableEq

/-- The attribute surface of a twscrape tweet object.  `id`, `date` and
`user` are read by *direct* attribute access (raising `AttributeError`
when absent); the remaining fields are read with `getattr` defaults. -/
structure TwsTweet where
  id : Option Int := none
  date : Option String := none
  user : Option TwsUser := none
  rawContent : Option String := none
  content : Option String := none
  likeCount : Option Int := none
  retweetCount : Option Int := none
  replyCount : Option Int := none
  viewCount : Option Int := none
  sourceLabel : Option String := none
deriving DecidableEq

/-- The output dict of `normalize_tweet`. -/
structure TwsNorm where
  id : Int
  date : String
  username : Option String
  displayName : Option String
  content : String
  likes : Option Int
  retweets : Option Int
  replies : Option Int
  views : Option Int
  source_label : Option String
deriving DecidableEq

/-- Python `a or b` on two plain strings (the
`getattr(t, "rawContent", "") or getattr(t, "content", "")` chain). -/
def pyOrStr (a b : String) : String := if a = "" then b else a

/-- `normalize_tweet` of `scraper_twscrape.py`: the dict literal reads
`t.id`, `str(t.date)` and `t.user` directly (in that order), raising
`AttributeError` for the first one absent; every other field uses a
`getattr` default. -/
def normalize_tweet (t : TwsTweet) : Except String TwsNorm :=
  match t.id with
  | none => .error "AttributeError: id"
  | some i =>
    match t.date with
    | none => .error "AttributeError: date"
    | some d =>
      match t.user with
      | none => .error "AttributeError: user"
      | some u =>
        .ok { id := i
              date := d
              username := u.username
              displayName := u.displayName
              content := pyOrStr (t.rawContent.getD "") (t.content.getD "")
              likes := t.likeCount
              retweets := t.retweetCount
              replies := t.replyCount
              views := t.viewCount
              source_label := t.sourceLabel }

/-! ## SimpleTwitterScraper (`scraper.py` lines 21-57) -/

/-- Character index of the first occurrence of `pat` in `s`, or `none`
(Python `str.find` returning `-1`). -/
def strFind (s pat : String) : Option Nat :=
  (List.range (s.length + 1)).find? fun i =>
    (s.toList.drop i).take pat.length = pat.toList

/-- Python `pat in s`. -/
def containsSub (s pat : String) : Bool := (strFind s pat).isSome

/-- The loop body of `_parse_nitter_html` on one split part: locate
`<p>` and `</p>` with `str.find`; when both are found, the slice
between them is one tweet text, otherwise the part is skipped. -/
def parseNitterPart (p : String) : Option String :=
  match strFind p "<p>", strFind p "</p>" with
  | some cs, some ce => some ((p.toList.drop (cs + 3)).take (ce - (cs + 3))).asString
  | _, _ => none

/-- `SimpleTwitterScraper._parse_nitter_html`: split the page on the
tweet-body marker and extract the paragraph of every part after the
first. -/
def parse_nitter_html (html : String) : List String :=
  ((html.splitOn "<div class=\x22tweet-body\x22>").drop 1).filterMap parseNitterPart

/-- `SimpleTwitterScraper.search`: the transport either raises
(`Except.error`, caught by the bare handler which returns `[]`) or
yields a status and a body; any non-200 status also returns `[]`;
otherwise the parsed tweets truncated to `limit`. -/
def SimpleTwitterScraper.search (resp : Except String (Int × String))
    (limit : Nat) : List String :=
  match resp with
  | .error _ => []
  | .ok (status, body) =>
    if status ≠ 200 then [] else (parse_nitter_html body).take limit

/-! ## SafeScraper.search (`scraper_pro.py` lines 192-231) -/

/-- One parsed `article` element of the search/timeline page, as the
external document parser exposes it to the loop: the optional
tweet-text div's text, the whole element's text, and the first link's
href when one exists. -/
structure ArticleEl where
  tweetText : Option String := none
  fullText : String := ""
  href : Option String := none
deriving DecidableEq

/-- The transport response for the search page together with what the
document parser finds in its body. -/
structure SearchPage where
  status_code : Int
  text : String
  articles : List ArticleEl
deriving DecidableEq

/-- Tweet id extraction from an article link: split the href on `/` and
take the last part when the part before it is `status` and there are at
least four parts. -/
def extractStatusId (href : String) : Option String :=
  if 4 ≤ (href.splitOn "/").length ∧
      (href.splitOn "/").getD ((href.splitOn "/").length - 2) "" = "status" then
    some ((href.splitOn "/").getD ((href.splitOn "/").length - 1) "")
  else none

/-- The text the loop stores for one article: the tweet-text div when
present, otherwise the element's own text truncated to 800 chars. -/
def articleText (a : ArticleEl) : String :=
  match a.tweetText with
  | some s => s
  | none => a.fullText.take 800

/-- The id the loop stores for one article (`None` without a link). -/
def articleId (a : ArticleEl) : Option String :=
  match a.href with
  | some h => extractStatusId h
  | none => none

/-- One entry of the result list of `SafeScraper.search` (an absent
dict key is `none`; `raw_html` only exists on the raw-snippet entry). -/
structure SearchRecord where
  id : Option String := none
  text : Option String := none
  raw_html : Option String := none
  scraped_with_query : String
deriving DecidableEq

/-- `SafeScraper.search` body (one attempt under `retryable`) on a
fetched page: a non-200 status logs a warning and returns `[]`; on 200
the loop turns the first `limit` of the first `limit*2` article
elements into records; when no record was built, a single raw-snippet
record is returned instead. -/
def SafeScraper.search (page : SearchPage) (query : String) (limit : Nat) :
    List SearchRecord :=
  if page.status_code ≠ 200 then []
  else
    let results := ((page.articles.take (limit * 2)).take limit).map fun a =>
      ({ id := articleId a, text := some (articleText a),
         scraped_with_query := query } : SearchRecord)
    if results = [] then
      [{ id := none, text := none, raw_html := some (page.text.take 1000),
         scraped_with_query := query }]
    else results.take limit

/-! ## SafeTwitterScraper.search / tweet_details
(`scraper_twikit_safe.py` lines 27-128) -/

/-- The attribute surface of a twikit user object read here; the
`screen_name` access is direct and raises when absent. -/
structure TkUser where
  screen_name : Option String := none
deriving DecidableEq

/-- The attribute surface of a twikit tweet object read by
`SafeTwitterScraper`: `id`, `text`, `user` and `created_at` are direct
accesses that raise when absent. -/
structure TkTweet where
  id : Option String := none
  text : Option String := none
  user : Option TkUser := none
  created_at : Option String := none
deriving DecidableEq

/-- One result dict of `SafeTwitterScraper.search` / layer 1 of
`tweet_details`. -/
structure TkRecord where
  id : Option String := none
  text : Option String := none
  username : Option String := none
  created_at : Option String := none
deriving DecidableEq

/-- The record the per-item `try` block builds from direct attribute
accesses, or `none` when an access raises `AttributeError` and the
`except: continue` skips the item: `id`, `text`, `username`
(`t.user.screen_name if t.user else None`) and `created_at` are read in
that order, so the item survives iff `id`, `text` and `created_at` are
present and `user`, when present, has a `screen_name`. -/
def tkItemRecord (t : TkTweet) : Option TkRecord :=
  match t.id, t.text, t.created_at with
  | some i, some x, some c =>
    match t.user with
    | some u =>
      match u.screen_name with
      | some sn =>
        some { id := some i, text := some x, username := some sn,
               created_at := some c }
      | none => none
    | none =>
      some { id := some i, text := some x, username := none,
             created_at := some c }
  | _, _, _ => none

/-- The collection loop of `SafeTwitterScraper.search`: append each
surviving item, then break as soon as `limit` records are collected
(the length check runs after the append). -/
def tkCollect (limit : Nat) : List TkTweet → List TkRecord → List TkRecord
  | [], acc => acc.reverse
  | t :: rest, acc =>
    match tkItemRecord t with
    | none => tkCollect limit rest acc
    | some r =>
      if limit ≤ acc.length + 1 then (r :: acc).reverse
      else tkCollect limit rest (r :: acc)

/-- `SafeTwitterScraper.search`: the client call (`search_tweet`)
either raises — caught, printed, and turned into `[]` — or yields the
raw items fed to the collection loop. -/
def SafeTwitterScraper.search (raw : Except String (List TkTweet))
    (limit : Nat) : List TkRecord :=
  match raw with
  | .error _ => []
  | .ok l => tkCollect limit l []

/-- A raw transport response (status and body text). -/
structure HttpResponse where
  status_code : Int
  text : String
deriving DecidableEq

/-- The value returned by `SafeTwitterScraper.tweet_details`: a
structured record (layer 1 or 2), the raw-HTML dict (layer 3), or the
final error dict.  The Python function catches every exception of every
layer, so its result is total — nothing propagates to the caller. -/
inductive TkDetails where
  | record (r : TkRecord) : TkDetails
  | rawHtml (id text html : String) : TkDetails
  | failure (error : String) : TkDetails
deriving DecidableEq

/-- `SafeTwitterScraper.tweet_details`: layer 1 runs the structured
lookup (`primary`) and builds the same direct-access dict as the search
loop inside its `try`, so a raise in either falls through; layer 2
reissues `search("conversation_id:<id>", limit=1)` (whose client call
is `searchRaw`) and returns its first hit when any; layer 3 fetches the
status page (`raw`; an `Except.error` is a raised transport exception
swallowed by the bare `except`), accepting only a 200 body containing
`"status"`; otherwise the fixed failure dict is returned. -/
def SafeTwitterScraper.tweet_details (tweet_id : String)
    (primary : Except String TkTweet)
    (searchRaw : Except String (List TkTweet))
    (raw : Except String HttpResponse) : TkDetails :=
  match (match primary with
         | .ok t => tkItemRecord t
         | .error _ => none) with
  | some r => .record r
  | none =>
    match SafeTwitterScraper.search searchRaw 1 with
    | r :: _ => .record r
    | [] =>
      match raw with
      | .ok resp =>
        if resp.status_code = 200 ∧ containsSub resp.text "status" = true then
          .rawHtml tweet_id "(raw HTML fetched)" (resp.text.take 5000)
        else .failure "Tweet not accessible or unsupported structure"
      | .error _ => .failure "Tweet not accessible or unsupported structure"

/-! ## parse_tweet_html / SafeScraper.tweet_details
(`scraper_pro.py` lines 132-171 and 319-347) -/

/-- What the external document parser (BeautifulSoup) finds in a status
page: the relevant meta-tag contents, the tweet-text div's text, the
first article's text, and the whole document's text (used by
`tweet_details` as last-resort body text). -/
structure Soup where
  og_description : Option String := none
  og_site_name : Option String := none
  published_time : Option String := none
  og_image : Option String := none
  tweetText : Option String := none
  articleText : Option String := none
  pageText : String := ""
deriving DecidableEq

/-- The dict built by `parse_tweet_html` (plus the `id` / `scraped_at`
keys that `tweet_details` stamps afterwards). -/
structure ParsedTweet where
  id : Option String := none
  text : Option String := none
  username : Option String := none
  created_at : Option String := none
  likes : Option Int := none
  retweets : Option Int := none
  replies : Option Int := none
  media : List String := []
  raw_html : Option String := none
  scraped_at : Option String := none
deriving DecidableEq

/-- `parse_tweet_html` on the parser's view of the markup: prefer the
`og:description` meta content; when that left `text` unset, use the
tweet-text div, else the first article's text truncated to 1000 chars;
`og:site_name`, `article:published_time` and `og:image` fill the rest;
the raw snippet keeps the first 4000 chars of the markup. -/
def parse_tweet_html (html : String) (soup : Soup) : ParsedTweet :=
  { id := none
    text :=
      match truthyS soup.og_description with
      | some t => some t
      | none =>
        match soup.tweetText with
        | some tv => some tv
        | none =>
          match soup.articleText with
          | some a => some (a.take 1000)
          | none => none
    username := truthyS soup.og_site_name
    created_at := truthyS soup.published_time
    media :=
      match truthyS soup.og_image with
      | some c => [c]
      | none => []
    raw_html := some (html.take 4000)
    scraped_at := none }

/-- The value returned by one attempt of `SafeScraper.tweet_details`:
a normalized twikit record, the parsed-HTML dict, or the error dict of
the non-200 branch. -/
inductive ProDetails where
  | normalized (r : NormTweet) : ProDetails
  | parsed (p : ParsedTweet) : ProDetails
  | failure (error : String) (id : String) : ProDetails
deriving DecidableEq

/-- The message of the error dict of the non-200 branch
(`f"HTTP {r.status_code}"`). -/
def httpErrMsg (status : Int) : String := "HTTP " ++ toString status

/-- `SafeScraper.tweet_details` body (one attempt under `retryable`):
when the account has a client, the twikit lookup (`primary = some _`)
either succeeds — its result is normalized and returned — or raises and
is caught (`primary = some (.error _)`); without a client
(`primary = none`) the lookup is skipped.  The document fallback then
fetches the status page: a raised transport exception (`raw = .error`)
escapes the body (to be retried and finally re-raised by `retryable`);
a 200 response is parsed, stamped with the id and the scrape time, and
given the whole page text when its `text` is still falsy; any other
status yields the error dict. -/
def SafeScraper.tweet_details (tweet_id : String)
    (primary : Option (Except String TwikitTweet))
    (raw : Except String (HttpResponse × Soup))
    (scraped_at : String) : Except String ProDetails :=
  match primary with
  | some (.ok t) => .ok (.normalized (normalize_tweet_from_twikit t none))
  | _ =>
    match raw with
    | .error e => .error e
    | .ok (resp, soup) =>
      if resp.status_code = 200 then
        let p0 := parse_tweet_html resp.text soup
        let p1 := { p0 with id := some tweet_id, scraped_at := some scraped_at }
        let p2 :=
          match p1.text with
          | some t =>
            if t = "" then { p1 with text := some (soup.pageText.take 1000) }
            else p1
          | none => { p1 with text := some (soup.pageText.take 1000) }
        .ok (.parsed p2)
      else .ok (.failure (httpErrMsg resp.status_code) tweet_id)

/-! ## Theorems -/

/-- One call to `wait` returns no earlier than `min_delay` after the
previous stamp: either the remaining delay is slept (plus nonnegative
jitter), or at least `min_delay` had already elapsed. -/
theorem grantTime_spacing (st : GlobalRateLimiter) (now j : ℚ)
    (_hnow : st.last ≤ now) (hj : 0 ≤ j) :
    st.last + st.min_delay ≤ st.grantTime now j := by
  unfold GlobalRateLimiter.grantTime
  have h1 : st.min_delay - (now - st.last) ≤ max 0 (st.min_delay - (now - st.last)) :=
    le_max_right _ _
  split_ifs with h
  · linarith
  · push_neg at h
    linarith

/-- The first grant of a valid call sequence is no earlier than
`min_delay` after the limiter's current stamp. -/
theorem runGovernor_head (st : GlobalRateLimiter) (tr : List (ℚ × ℚ))
    (h : validTrace st tr = true) :
    ∀ g ∈ (runGovernor st tr).head?, st.last + st.min_delay ≤ g := by
  cases tr with
  | nil => intro g hg; simp [runGovernor] at hg
  | cons p rest =>
    obtain ⟨now, j⟩ := p
    intro g hg
    simp only [runGovernor, List.head?_cons, Option.mem_def, Option.some.injEq] at hg
    simp only [validTrace, Bool.and_eq_true, decide_eq_true_eq] at h
    rw [← hg]
    exact grantTime_spacing st now j h.1.1 h.1.2

/-- Consecutive grant times of any valid serialized call sequence are
separated by at least `min_delay`. -/
theorem runGovernor_chain (st : GlobalRateLimiter) (tr : List (ℚ × ℚ))
    (h : validTrace st tr = true) :
    List.Chain' (fun a b => a + st.min_delay ≤ b) (runGovernor st tr) := by
  induction tr generalizing st with
  | nil => simp [runGovernor]
  | cons p rest ih =>
    obtain ⟨now, j⟩ := p
    simp only [validTrace, Bool.and_eq_true, decide_eq_true_eq] at h
    obtain ⟨⟨h1, h2⟩, h3⟩ := h
    rw [runGovernor, List.chain'_cons']
    constructor
    · intro b hb
      exact runGovernor_head (st.wait now j).2 rest h3 b hb
    · exact ih (st.wait now j).2 h3

/-- C2: for every `qps > 0`, any two consecutive grants of the rate
governor's `wait` are separated by at least `1/qps` seconds.  The
asyncio lock serializes all callers into one sequence, so the bound is
system-wide, however many fetches are concurrently scheduled; the trace
hypothesis only states that jitter samples are nonnegative and the
clock is monotone. -/
theorem rate_governor_min_spacing (qps : ℚ) (tr : List (ℚ × ℚ))
    (hq : 0 < qps)
    (h : validTrace (GlobalRateLimiter.init qps) tr = true) :
    List.Chain' (fun a b => a + 1 / qps ≤ b)
      (runGovernor (GlobalRateLimiter.init qps) tr) := by
  have hmd : (GlobalRateLimiter.init qps).min_delay = 1 / qps := by
    show (1 : ℚ) / (if qps ≤ 0 then 1 else qps) = 1 / qps
    rw [if_neg (not_le.mpr hq)]
  have hc := runGovernor_chain (GlobalRateLimiter.init qps) tr h
  rwa [hmd] at hc

/-- Witness for C2: two governed calls at `qps = 2` on a concrete valid
trace are spaced by at least half a second. -/
theorem rate_governor_min_spacing_witness :
    (0 : ℚ) < 2 ∧
    validTrace (GlobalRateLimiter.init 2) [((0 : ℚ), (0 : ℚ)), (1, 0)] = true ∧
    List.Chain' (fun a b => a + 1 / 2 ≤ b)
      (runGovernor (GlobalRateLimiter.init 2) [((0 : ℚ), (0 : ℚ)), (1, 0)]) :=
  ⟨by norm_num,
   by
    simp only [validTrace, GlobalRateLimiter.init, GlobalRateLimiter.wait,
      GlobalRateLimiter.grantTime, Bool.and_eq_true, decide_eq_true_eq]
    norm_num,
   rate_governor_min_spacing 2 [((0 : ℚ), (0 : ℚ)), (1, 0)] (by norm_num)
    (by
      simp only [validTrace, GlobalRateLimiter.init, GlobalRateLimiter.wait,
        GlobalRateLimiter.grantTime, Bool.and_eq_true, decide_eq_true_eq]
      norm_num)⟩

/-- The retry loop never invokes the wrapped operation more often than
its remaining fuel. -/
theorem retryCalls_le {E A : Type} (fn : Nat → Except E A) :
    ∀ k i, retryCalls fn i k ≤ k := by
  intro k
  induction k with
  | zero => intro i; simp [retryCalls]
  | succ n ih =>
    intro i
    cases hfn : fn i with
    | ok a => simp only [retryCalls, hfn]; omega
    | error e =>
      have := ih (i + 1)
      simp only [retryCalls, hfn]
      omega

/-- When every remaining attempt fails, the loop falls through to
`raise exc` with the error captured on the last attempt. -/
theorem retryGo_all_fail {E A : Type} (fn : Nat → Except E A) (errs : Nat → E) :
    ∀ n i exc, (∀ j, j ≤ n → fn (i + j) = .error (errs (i + j))) →
      retryGo fn exc i (n + 1) = .error (some (errs (i + n))) := by
  intro n
  induction n with
  | zero =>
    intro i exc hall
    have hfi : fn i = .error (errs i) := by simpa using hall 0 (by omega)
    simp [retryGo, hfi]
  | succ n ih =>
    intro i exc hall
    have hfi : fn i = .error (errs i) := by simpa using hall 0 (by omega)
    have hrest : ∀ j, j ≤ n → fn (i + 1 + j) = .error (errs (i + 1 + j)) := by
      intro j hj
      have h := hall (j + 1) (by omega)
      simpa [show i + (j + 1) = i + 1 + j from by omega] using h
    have hstep := ih (i + 1) (some (errs i)) hrest
    simp only [retryGo, hfi] at hstep ⊢
    rw [hstep]
    simp only [show i + 1 + n = i + (n + 1) from by omega]

/-- C4: `retryable` with `max_retries = m` invokes the wrapped
operation at most `m` times; when every attempt raises, the final
`raise exc` re-raises the error captured on the last attempt (`m - 1`)
unchanged. -/
theorem retryable_bounded_and_reraises {E A : Type} (fn : Nat → Except E A)
    (errs : Nat → E) (m : Nat) :
    retryCalls fn 0 m ≤ m ∧
    (0 < m → (∀ j, j < m → fn j = .error (errs j)) →
      retryable fn m = .error (some (errs (m - 1)))) := by
  constructor
  · exact retryCalls_le fn m 0
  · intro hm hall
    obtain ⟨n, rfl⟩ : ∃ n, m = n + 1 := ⟨m - 1, by omega⟩
    have h := retryGo_all_fail fn errs n 0 none (fun j hj => by
      simpa using hall j (by omega))
    unfold retryable
    rw [h]
    simp

/-- Witness for C4: an operation that fails on every one of 3 attempts
is invoked at most 3 times and the final error is the one captured on
attempt 2. -/
theorem retryable_bounded_and_reraises_witness :
    retryCalls (fun i => (Except.error i : Except Nat Unit)) 0 3 ≤ 3 ∧
    retryable (fun i => (Except.error i : Except Nat Unit)) 3 =
      Except.error (some (3 - 1)) :=
  ⟨(retryable_bounded_and_reraises (fun i => (Except.error i : Except Nat Unit))
      (fun i => i) 3).1,
   (retryable_bounded_and_reraises (fun i => (Except.error i : Except Nat Unit))
      (fun i => i) 3).2 (by norm_num) (fun j _ => rfl)⟩

/-- C7: two constructions of `SafeTwitterScraper` with any non-empty
credential pairs install identical session cookies — the hardcoded
pair — so the installed session is independent of the supplied
credentials. -/
theorem safeTwitterScraper_cookies_independent (a1 c1 a2 c2 : String)
    (h1 : a1 ≠ "") (h2 : c1 ≠ "") (h3 : a2 ≠ "") (h4 : c2 ≠ "") :
    SafeTwitterScraper.init a1 c1 = Except.ok hardcodedCookies ∧
    SafeTwitterScraper.init a1 c1 = SafeTwitterScraper.init a2 c2 := by
  unfold SafeTwitterScraper.init
  rw [if_neg (by tauto), if_neg (by tauto)]
  exact ⟨rfl, rfl⟩

/-- Witness for C7: two concrete, different credential pairs yield the
same installed cookies. -/
theorem safeTwitterScraper_cookies_independent_witness :
    SafeTwitterScraper.init "tokenA" "csrfA" = Except.ok hardcodedCookies ∧
    SafeTwitterScraper.init "tokenA" "csrfA" =
      SafeTwitterScraper.init "tokenB" "csrfB" :=
  safeTwitterScraper_cookies_independent "tokenA" "csrfA" "tokenB" "csrfB"
    (by decide) (by decide) (by decide) (by decide)

/-- C9: constructing the account pool from the empty list fails fast
with the configuration error; from any non-empty list it succeeds. -/
theorem accountPool_init_contract (accounts : List Account) :
    (accounts = [] →
      AccountPool.init accounts =
        .error "AccountPool requires at least one account") ∧
    (accounts ≠ [] →
      AccountPool.init accounts = .ok { accounts := accounts, idx := 0 }) := by
  constructor
  · intro h; simp [AccountPool.init, h]
  · intro h; simp [AccountPool.init, h]

/-- Witness for C9: the empty pool fails, a one-account pool succeeds. -/
theorem accountPool_init_contract_witness :
    AccountPool.init [] = .error "AccountPool requires at least one account" ∧
    AccountPool.init [{ name := "acc1", auth_token := "a", ct0 := "c" }] =
      .ok { accounts := [{ name := "acc1", auth_token := "a", ct0 := "c" }],
            idx := 0 } :=
  ⟨(accountPool_init_contract []).1 rfl,
   (accountPool_init_contract [{ name := "acc1", auth_token := "a", ct0 := "c" }]).2
     (by simp)⟩

/-- C10: a non-positive configured `qps` is clamped to the safe default
1.0 (giving `min_delay = 1` with no division error), and a positive
`qps` is used as given (`min_delay = 1/qps`). -/
theorem rateLimiter_clamps_nonpositive_qps (qps : ℚ) :
    (qps ≤ 0 → (GlobalRateLimiter.init qps).min_delay = 1) ∧
    (0 < qps → (GlobalRateLimiter.init qps).min_delay = 1 / qps) := by
  constructor
  · intro h
    show (1 : ℚ) / (if qps ≤ 0 then 1 else qps) = 1
    rw [if_pos h]; norm_num
  · intro h
    show (1 : ℚ) / (if qps ≤ 0 then 1 else qps) = 1 / qps
    rw [if_neg (not_le.mpr h)]

/-- Witness for C10: `qps = -3` is clamped to delay 1, `qps = 2` gives
delay `1/2`. -/
theorem rateLimiter_clamps_nonpositive_qps_witness :
    (GlobalRateLimiter.init (-3)).min_delay = 1 ∧
    (GlobalRateLimiter.init 2).min_delay = 1 / 2 :=
  ⟨(rateLimiter_clamps_nonpositive_qps (-3)).1 (by norm_num),
   (rateLimiter_clamps_nonpositive_qps 2).2 (by norm_num)⟩

/-- C1 (code defect): errored fetches silently return empty sequences
with no failure descriptor and no marker — `SafeScraper.search` on an
HTTP 404, `SimpleTwitterScraper.search` on a raised transport exception
or a non-200 status, and `SafeTwitterScraper.search` on a raised client
call all return `[]`, indistinguishable from a legitimately empty
result. -/
theorem search_silent_empty_on_error :
    SafeScraper.search { status_code := 404, text := "", articles := [] }
      "india" 20 = [] ∧
    SimpleTwitterScraper.search (Except.error "ConnectionError") 20 = [] ∧
    SimpleTwitterScraper.search (Except.ok (404, "")) 20 = [] ∧
    SafeTwitterScraper.search (Except.error "Unauthorized") 20 = [] :=
  ⟨rfl, rfl, rfl, rfl⟩

/-- Counterexample for C3 as stated: in the exhausted item-detail
scenario, `SafeTwitterScraper.tweet_details` returns one fixed failure
dict — two runs whose last underlying errors differ (primary raised
"Forbidden" with fallback HTTP 404, vs. "Timeout" with HTTP 500)
return identical descriptors, so the descriptor does not carry the
last underlying error. -/
theorem tweet_details_fixed_failure_message :
    SafeTwitterScraper.tweet_details "12345" (.error "Forbidden") (.ok [])
        (.ok { status_code := 404, text := "" }) =
      SafeTwitterScraper.tweet_details "12345" (.error "Timeout") (.ok [])
        (.ok { status_code := 500, text := "" }) ∧
    SafeTwitterScraper.tweet_details "12345" (.error "Forbidden") (.ok [])
        (.ok { status_code := 404, text := "" }) =
      .failure "Tweet not accessible or unsupported structure" :=
  ⟨rfl, rfl⟩

/-- C3 (amended): when the primary structured call raises, the
search-recovery step finds no conversation match and the document
fallback returns a non-success status, both implementations return a
failure-descriptor value and neither propagates an exception to the
caller: `SafeScraper.tweet_details` records the HTTP status of the
failed fetch in its descriptor, while
`SafeTwitterScraper.tweet_details` returns a fixed message that does
not carry the underlying error. -/
theorem tweet_details_exhausted_failure (tweet_id e scraped_at body : String)
    (status : Int) (soup : Soup) (searchRaw : Except String (List TkTweet))
    (hs : status ≠ 200)
    (hsearch : SafeTwitterScraper.search searchRaw 1 = []) :
    SafeTwitterScraper.tweet_details tweet_id (.error e) searchRaw
        (.ok { status_code := status, text := body }) =
      .failure "Tweet not accessible or unsupported structure" ∧
    SafeScraper.tweet_details tweet_id (some (.error e))
        (.ok ({ status_code := status, text := body }, soup)) scraped_at =
      .ok (.failure (httpErrMsg status) tweet_id) := by
  constructor
  · unfold SafeTwitterScraper.tweet_details
    rw [hsearch]
    simp [hs]
  · unfold SafeScraper.tweet_details
    simp [hs]

/-- Witness for C3 (amended): the concrete scenario of the spec — id
"12345", primary raises, empty conversation search, fallback HTTP
404. -/
theorem tweet_details_exhausted_failure_witness :
    ((404 : Int) ≠ 200) ∧
    SafeTwitterScraper.search (Except.ok ([] : List TkTweet)) 1 = [] ∧
    SafeTwitterScraper.tweet_details "12345" (.error "TweetNotAvailable")
        (.ok []) (.ok { status_code := 404, text := "" }) =
      .failure "Tweet not accessible or unsupported structure" ∧
    SafeScraper.tweet_details "12345" (some (.error "TweetNotAvailable"))
        (.ok ({ status_code := 404, text := "" }, {})) "2026-01-01T00:00:00Z" =
      .ok (.failure (httpErrMsg 404) "12345") :=
  ⟨by decide, rfl,
   (tweet_details_exhausted_failure "12345" "TweetNotAvailable"
      "2026-01-01T00:00:00Z" "" 404 {} (.ok []) (by decide) rfl).1,
   (tweet_details_exhausted_failure "12345" "TweetNotAvailable"
      "2026-01-01T00:00:00Z" "" 404 {} (.ok []) (by decide) rfl).2⟩

/-- C5 (code defect): `_normalize_tweet_from_twikit` chains the like
counters with Python `or`, so a source tweet whose `likeCount` is the
valid count 0 (and that has no separate `likes` attribute) is emitted
with `likes = none` — the unknown marker — and its normalization is
identical to that of a tweet carrying no like information at all: zero
and unavailable are conflated. -/
theorem normalize_zero_likes_becomes_unknown :
    (normalize_tweet_from_twikit { likeCount := some 0 } none).likes = none ∧
    normalize_tweet_from_twikit { likeCount := some 0 } none =
      normalize_tweet_from_twikit {} none :=
  ⟨rfl, rfl⟩

/-- Counterexample for C6 as stated: the twscrape normalizer applied to
a source object with all fields absent raises `AttributeError` on the
direct `t.id` access instead of returning a record of unknowns. -/
theorem normalize_tweet_raises_on_missing_fields :
    normalize_tweet {} = Except.error "AttributeError: id" := rfl

/-- C6 (amended): `_normalize_tweet_from_twikit` tolerates any subset
of absent fields — it is a total function, every absent source field
yields unknown, and its `except` branch never fires — while twscrape's
`normalize_tweet` raises `AttributeError` when `id` (a directly
accessed field) is absent, so only its `getattr`-guarded fields
tolerate absence. -/
theorem normalizers_tolerate_absent_fields (t : TwikitTweet) (s : TwsTweet) :
    ((t.id = none → (normalize_tweet_from_twikit t none).id = none) ∧
     (t.text = none → t.rawContent = none → t.content = none →
       (normalize_tweet_from_twikit t none).text = none) ∧
     (t.created_at = none → t.createdAt = none →
       (normalize_tweet_from_twikit t none).created_at = none) ∧
     (t.likeCount = none → t.likes = none →
       (normalize_tweet_from_twikit t none).likes = none) ∧
     (t.retweetCount = none →
       (normalize_tweet_from_twikit t none).retweets = none) ∧
     (t.replyCount = none →
       (normalize_tweet_from_twikit t none).replies = none) ∧
     (t.viewCount = none → (normalize_tweet_from_twikit t none).views = none) ∧
     (t.conversation_id = none → t.conversationId = none →
       (normalize_tweet_from_twikit t none).conversation_id = none) ∧
     (t.user = none → (normalize_tweet_from_twikit t none).user = none) ∧
     (normalize_tweet_from_twikit t none).error = none) ∧
    (s.id = none → normalize_tweet s = Except.error "AttributeError: id") := by
  refine ⟨⟨?_, ?_, ?_, ?_, ?_, ?_, ?_, ?_, ?_, ?_⟩, ?_⟩
  · intro h; simp [normalize_tweet_from_twikit, h]
  · intro h1 h2 h3; simp [normalize_tweet_from_twikit, orFalsyS, h1, h2, h3]
  · intro h1 h2; simp [normalize_tweet_from_twikit, orFalsyS, h1, h2]
  · intro h1 h2; simp [normalize_tweet_from_twikit, orFalsyN, h1, h2]
  · intro h; simp [normalize_tweet_from_twikit, h]
  · intro h; simp [normalize_tweet_from_twikit, h]
  · intro h; simp [normalize_tweet_from_twikit, h]
  · intro h1 h2; simp [normalize_tweet_from_twikit, orFalsyS, h1, h2]
  · intro h; simp [normalize_tweet_from_twikit, h]
  · simp [normalize_tweet_from_twikit]
  · intro h; simp [normalize_tweet, h]

/-- Witness for C6 (amended): the fully absent source objects. -/
theorem normalizers_tolerate_absent_fields_witness :
    (normalize_tweet_from_twikit {} none).id = none ∧
    (normalize_tweet_from_twikit {} none).text = none ∧
    (normalize_tweet_from_twikit {} none).created_at = none ∧
    (normalize_tweet_from_twikit {} none).likes = none ∧
    (normalize_tweet_from_twikit {} none).retweets = none ∧
    (normalize_tweet_from_twikit {} none).replies = none ∧
    (normalize_tweet_from_twikit {} none).views = none ∧
    (normalize_tweet_from_twikit {} none).conversation_id = none ∧
    (normalize_tweet_from_twikit {} none).user = none ∧
    (normalize_tweet_from_twikit {} none).error = none ∧
    normalize_tweet ({} : TwsTweet) = Except.error "AttributeError: id" :=
  ⟨(normalizers_tolerate_absent_fields {} {}).1.1 rfl,
   (normalizers_tolerate_absent_fields {} {}).1.2.1 rfl rfl rfl,
   (normalizers_tolerate_absent_fields {} {}).1.2.2.1 rfl rfl,
   (normalizers_tolerate_absent_fields {} {}).1.2.2.2.1 rfl rfl,
   (normalizers_tolerate_absent_fields {} {}).1.2.2.2.2.1 rfl,
   (normalizers_tolerate_absent_fields {} {}).1.2.2.2.2.2.1 rfl,
   (normalizers_tolerate_absent_fields {} {}).1.2.2.2.2.2.2.1 rfl,
   (normalizers_tolerate_absent_fields {} {}).1.2.2.2.2.2.2.2.1 rfl rfl,
   (normalizers_tolerate_absent_fields {} {}).1.2.2.2.2.2.2.2.2.1 rfl,
   (normalizers_tolerate_absent_fields {} {}).1.2.2.2.2.2.2.2.2.2,
   (normalizers_tolerate_absent_fields {} {}).2 rfl⟩

/-- Counterexample for C8 as stated: round-tripping a record with a
known id and text through the normalizer does not reproduce it — the
renormalization loses every field. -/
theorem renormalize_not_identity :
    renormalize
        (normalize_tweet_from_twikit { id := some "1", text := some "hi" } none) ≠
      normalize_tweet_from_twikit { id := some "1", text := some "hi" } none := by
  decide

/-- C8 (amended): the normalizer is not idempotent on its outputs;
renormalizing any record yields the all-unknown record (every
attribute lookup on the plain output dict misses), so only a second
renormalization is a fixed point. -/
theorem renormalize_constant (r : NormTweet) :
    renormalize r = normalize_tweet_from_twikit {} none ∧
    renormalize (renormalize r) = renormalize r :=
  ⟨rfl, rfl⟩
